import Mathlib

/-
Verification of the Metric Aggregation and EMF Serialization Engine
(`src/aws_lambda_powertools/metrics/base.py`) against its natural-language
specification.  The engine state (`MetricManager`) and its operations
(`add_namespace`, `add_dimension`, `add_metric`, `serialize_metric_set`)
are shallowly embedded below; Python dictionaries become insertion-ordered
association lists, raised exceptions become explicit error results that also
carry the state left behind by the partially executed call, and the
current-time read becomes an explicit `now_ms` argument.
-/

namespace EMF

/-- Modelled from the spec: the closed unit catalog.  The `MetricUnit` enum lives in
`aws_lambda_powertools.helper.models`, which is not under `src/`; the spec describes it
as a fixed closed set of canonical unit strings (for example "Seconds", "Count",
"Count/Second", "Bytes", "Percent", "Milliseconds"), where accepted inputs are the
canonical string, a symbolic alias (the enum member name), or a typed unit value. -/
inductive MetricUnit where
  | Seconds
  | Milliseconds
  | Count
  | CountPerSecond
  | Bytes
  | Percent
deriving DecidableEq, Repr

/-- Canonical string of a unit (the enum member value in the source). -/
def MetricUnit.value : MetricUnit → String
  | .Seconds => "Seconds"
  | .Milliseconds => "Milliseconds"
  | .Count => "Count"
  | .CountPerSecond => "Count/Second"
  | .Bytes => "Bytes"
  | .Percent => "Percent"

/-- Symbolic alias of a unit (the enum member name, a key of `MetricUnit.__members__`). -/
def MetricUnit.memberName : MetricUnit → String
  | .Seconds => "Seconds"
  | .Milliseconds => "Milliseconds"
  | .Count => "Count"
  | .CountPerSecond => "CountPerSecond"
  | .Bytes => "Bytes"
  | .Percent => "Percent"

/-- All members of the unit catalog, in declaration order. -/
def MetricUnit.members : List MetricUnit :=
  [.Seconds, .Milliseconds, .Count, .CountPerSecond, .Bytes, .Percent]

/-- Embeds `self._metric_units = [unit.value for unit in MetricUnit]`. -/
def metric_units : List String := MetricUnit.members.map MetricUnit.value

/-- Embeds `self._metric_unit_options = list(MetricUnit.__members__)`. -/
def metric_unit_options : List String := MetricUnit.members.map MetricUnit.memberName

/-- Embeds the enum lookup `MetricUnit[name]` (lookup by member name). -/
def MetricUnit.fromMemberName (s : String) : Option MetricUnit :=
  MetricUnit.members.find? (fun u => u.memberName == s)

/-- Python dictionary assignment `d[k] = v` on an insertion-ordered association list:
an existing key keeps its position and its value is replaced; a new key is appended. -/
def dictSet {α : Type} : List (String × α) → String → α → List (String × α)
  | [], k, v => [(k, v)]
  | (k0, v0) :: rest, k, v =>
    if k0 = k then (k, v) :: rest else (k0, v0) :: dictSet rest k v

/-- Python dictionary lookup `d.get(k)`. -/
def dictGet? {α : Type} : List (String × α) → String → Option α
  | [], _ => none
  | (k0, v0) :: rest, k => if k0 = k then some v0 else dictGet? rest k

/-- Python `list(d.keys())`. -/
def dictKeys {α : Type} (d : List (String × α)) : List String := d.map Prod.fst

/-- The per-name metric record stored in the buffer: `{"Unit": unit, "Value": float(value)}`.
Python float values are embedded as exact rationals. -/
structure Metric where
  Unit : String
  Value : ℚ
deriving DecidableEq, Repr

/-- A dynamically typed Python argument for the `value` parameter: either a number
(`isinstance(value, numbers.Number)` holds) or a non-numeric text string. -/
inductive PyValue where
  | num (q : ℚ)
  | str (s : String)
deriving DecidableEq, Repr

/-- The `unit` argument, per the source annotation `Union[str, MetricUnit]`. -/
inductive UnitInput where
  | str (s : String)
  | unit (u : MetricUnit)
deriving DecidableEq, Repr

/-- The dynamic value returned by a Python function: `None`, or a boolean. -/
inductive PyReturn where
  | noneV
  | boolV (b : Bool)
deriving DecidableEq, Repr

/-- The four exception kinds of `aws_lambda_powertools.metrics.exceptions`, carrying
the data the source interpolates into their messages. -/
inductive MetricsError where
  | MetricValueError (value : PyValue)
  | MetricUnitError (rejected : String) (options : List String)
  | UniqueNamespaceError (existing : String)
  | SchemaValidationError (violation : String)
deriving DecidableEq, Repr

/-- The engine state: `self.metric_set`, `self.dimension_set`, `self.namespace`. -/
structure MetricManager where
  metric_set : List (String × Metric)
  dimension_set : List (String × String)
  namespace_ : Option String
deriving DecidableEq, Repr

/-- Python truthy-or on optional strings: `a or b` where `None` and `""` are falsy. -/
def pyOr (a b : Option String) : Option String :=
  match a with
  | some s => if s = "" then b else some s
  | none => b

/-- Embeds `MetricManager.__init__`: `self.namespace = os.getenv("POWERTOOLS_METRICS_NAMESPACE") or namespace`,
with the environment read made an explicit argument, and `None` defaults for the two buffers. -/
def MetricManager.init (env_namespace : Option String)
    (metric_set : Option (List (String × Metric)))
    (dimension_set : Option (List (String × String)))
    (ns : Option String) : MetricManager :=
  { metric_set := metric_set.getD []
    dimension_set := dimension_set.getD []
    namespace_ := pyOr env_namespace ns }

/-- Embeds `add_namespace`: raises `UniqueNamespaceError` when a namespace is already
set (leaving the state untouched), otherwise stores the name.  The error case returns
the unchanged state together with the raised error. -/
def add_namespace (m : MetricManager) (name : String) :
    MetricManager × Option MetricsError :=
  match m.namespace_ with
  | some ns => (m, some (MetricsError.UniqueNamespaceError ns))
  | none => ({ m with namespace_ := some name }, none)

/-- Embeds `add_dimension`: unconditional dictionary upsert. -/
def add_dimension (m : MetricManager) (name value : String) : MetricManager :=
  { m with dimension_set := dictSet m.dimension_set name value }

/-- Embeds `__extract_metric_unit_value`: a string that is a known member name is
mapped to the member value; a string then not among the unit values raises
`MetricUnitError` carrying the rejected value and the member-name options; a typed
`MetricUnit` is mapped to its value. -/
def extract_metric_unit_value (unit : UnitInput) : Except MetricsError String :=
  match unit with
  | .str s =>
    let s1 := if metric_unit_options.contains s then
        match MetricUnit.fromMemberName s with
        | some u => u.value
        | none => s
      else s
    if metric_units.contains s1 then Except.ok s1
    else Except.error (MetricsError.MetricUnitError s1 metric_unit_options)
  | .unit u => Except.ok u.value

/-- Embeds `MAX_METRICS = 100`. -/
def MAX_METRICS : Nat := 100

/-- A metric descriptor `{"Name": ..., "Unit": ...}` inside the metadata block. -/
structure MetricDescriptor where
  Name : String
  Unit : String
deriving DecidableEq, Repr

/-- One entry of the `CloudWatchMetrics` list:
`{"Namespace": ..., "Dimensions": [...], "Metrics": [...]}`. -/
structure CloudWatchMetricsEntry where
  Namespace : Option String
  Dimensions : List (List String)
  Metrics : List MetricDescriptor
deriving DecidableEq, Repr

/-- The reserved metadata value stored under the `"_aws"` key. -/
structure AwsMetadata where
  Timestamp : Int
  CloudWatchMetrics : List CloudWatchMetricsEntry
deriving DecidableEq, Repr

/-- A value of the flat serialized document: a numeric metric value, a string
dimension value, or the `"_aws"` metadata block. -/
inductive FlatValue where
  | num (q : ℚ)
  | str (s : String)
  | aws (meta : AwsMetadata)
deriving DecidableEq, Repr

/-- The flat serialized document, an insertion-ordered dictionary. -/
abbrev EmfDocument := List (String × FlatValue)

/-- Modelled from the spec: the fixed EMF schema (`schema.json`, loaded next to the
source module but not under `src/`).  Per the spec the validator checks structurally
that the metadata block is present and well shaped (timestamp a non-negative integer,
namespace a non-empty string, at least one dimension group, each metric descriptor
unit drawn from the closed catalog) and that the flat keys referenced by metric
descriptors are present and numeric; the first violation wins.  Returns `none` on
success or the name of the first violated item. -/
def validateEmf (doc : EmfDocument) : Option String :=
  match dictGet? doc "_aws" with
  | some (.aws meta) =>
    if meta.Timestamp < 0 then some "Timestamp"
    else
      match meta.CloudWatchMetrics with
      | [] => some "CloudWatchMetrics"
      | entries =>
        entries.findSome? (fun e =>
          match e.Namespace with
          | none => some "Namespace"
          | some ns =>
            if ns = "" then some "Namespace"
            else if e.Dimensions.isEmpty then some "Dimensions"
            else
              e.Metrics.findSome? (fun d =>
                if metric_units.contains d.Unit then
                  match dictGet? doc d.Name with
                  | some (.num _) => none
                  | _ => some d.Name
                else some "Unit"))
  | _ => some "_aws"

/-- The pure document assembly of `serialize_metric_set` before validation: flat
metric values in buffer order, then the `"_aws"` metadata (timestamp, namespace, the
single dimension-key group, the metric descriptors), then `metric_set.update(**dimensions)`. -/
def assemble_metric_set (m : MetricManager) (now_ms : Int) : EmfDocument :=
  let dimension_keys := dictKeys m.dimension_set
  let metric_names_unit := m.metric_set.map (fun p => MetricDescriptor.mk p.1 p.2.Unit)
  let flat0 : EmfDocument := m.metric_set.map (fun p => (p.1, FlatValue.num p.2.Value))
  let meta : AwsMetadata :=
    { Timestamp := now_ms
      CloudWatchMetrics :=
        [{ Namespace := m.namespace_
           Dimensions := [dimension_keys]
           Metrics := metric_names_unit }] }
  let flat1 := dictSet flat0 "_aws" (FlatValue.aws meta)
  m.dimension_set.foldl (fun d p => dictSet d p.1 (FlatValue.str p.2)) flat1

/-- Embeds `serialize_metric_set` on the engine state: assemble the flat document,
validate it against the schema, raise `SchemaValidationError` on violation, and
return the validated document otherwise. -/
def serialize_metric_set (m : MetricManager) (now_ms : Int) :
    Except MetricsError EmfDocument :=
  let doc := assemble_metric_set m now_ms
  match validateEmf doc with
  | some violation => Except.error (MetricsError.SchemaValidationError violation)
  | none => Except.ok doc

/-- Embeds `add_metric`: reject a non-numeric value, resolve the unit, store the
metric under its name, and when the buffer size reaches `MAX_METRICS` serialize the
current state, emit the document, and clear only the metric entries.  The result is
the final state, the list of documents emitted (printed) during the call, and either
the raised error or the returned Python value (always `None`: the source function has
no return statement).  In the error cases the state reflects the mutations executed
before the raise, exactly as in the source. -/
def add_metric (m : MetricManager) (name : String) (unit : UnitInput)
    (value : PyValue) (now_ms : Int) :
    MetricManager × List EmfDocument × Except MetricsError PyReturn :=
  match value with
  | .str _ => (m, [], Except.error (MetricsError.MetricValueError value))
  | .num q =>
    match extract_metric_unit_value unit with
    | .error e => (m, [], Except.error e)
    | .ok u =>
      let m1 : MetricManager :=
        { m with metric_set := dictSet m.metric_set name ⟨u, q⟩ }
      if m1.metric_set.length = MAX_METRICS then
        match serialize_metric_set m1 now_ms with
        | .error e => (m1, [], Except.error e)
        | .ok doc => ({ m1 with metric_set := [] }, [doc], Except.ok PyReturn.noneV)
      else (m1, [], Except.ok PyReturn.noneV)


-- Decidable equality for Except results, used to evaluate concrete runs.
deriving instance DecidableEq for Except

/-- A concrete buffer of 99 distinct metrics, for exercising the ceiling. -/
def exampleBuffer99 : List (String × Metric) :=
  (List.range 99).map (fun i => (toString i, ⟨"Count", 1⟩))

/-- A concrete engine holding 99 metrics, one dimension and a namespace. -/
def exampleM99 : MetricManager :=
  ⟨exampleBuffer99, [("service", "orders")], some "Orders"⟩

/-- A concrete engine holding 99 metrics and no namespace, so that the implicit
flush of the 100th metric fails schema validation. -/
def exampleM99NoNs : MetricManager :=
  ⟨exampleBuffer99, [("service", "orders")], none⟩

/-- The Orders example engine of the spec: empty buffer, one dimension, namespace set. -/
def exampleOrders : MetricManager :=
  ⟨[], [("service", "orders")], some "Orders"⟩

/-- An engine already holding a metric named X, for the overwrite example. -/
def exampleX : MetricManager :=
  ⟨[("X", ⟨"Count", 1⟩)], [], some "Orders"⟩

/-- The document the Orders example serializes to, at clock reading `t`. -/
def exampleOrdersDoc (t : Int) : EmfDocument :=
  [("Latency", FlatValue.num 42),
   ("_aws", FlatValue.aws
     ⟨t, [⟨some "Orders", [["service"]], [⟨"Latency", "Milliseconds"⟩]⟩]⟩),
   ("service", FlatValue.str "orders")]

theorem dictKeys_nil {α : Type} : dictKeys ([] : List (String × α)) = [] := rfl

theorem dictKeys_cons {α : Type} (k0 : String) (v0 : α) (rest : List (String × α)) :
    dictKeys ((k0, v0) :: rest) = k0 :: dictKeys rest := rfl

theorem dictGet?_dictSet_self {α : Type} (d : List (String × α)) (k : String) (v : α) :
    dictGet? (dictSet d k v) k = some v := by
  induction d with
  | nil => simp [dictSet, dictGet?]
  | cons p rest ih =>
    obtain ⟨k0, v0⟩ := p
    by_cases h : k0 = k
    · simp [dictSet, h, dictGet?]
    · simp [dictSet, h, dictGet?, ih]

theorem dictGet?_dictSet_ne {α : Type} (d : List (String × α)) (k : String) (v : α)
    (k2 : String) (h : k2 ≠ k) :
    dictGet? (dictSet d k v) k2 = dictGet? d k2 := by
  induction d with
  | nil => simp [dictSet, dictGet?, Ne.symm h]
  | cons p rest ih =>
    obtain ⟨k0, v0⟩ := p
    by_cases h0 : k0 = k
    · subst h0
      simp [dictSet, dictGet?, Ne.symm h]
    · by_cases h2 : k0 = k2
      · subst h2
        simp [dictSet, h0, dictGet?]
      · simp [dictSet, h0, dictGet?, h2, ih]

theorem dictKeys_dictSet_mem {α : Type} (d : List (String × α)) (k : String) (v : α)
    (h : k ∈ dictKeys d) :
    dictKeys (dictSet d k v) = dictKeys d := by
  induction d with
  | nil => simp [dictKeys_nil] at h
  | cons p rest ih =>
    obtain ⟨k0, v0⟩ := p
    rw [dictKeys_cons] at h
    by_cases h0 : k0 = k
    · subst h0
      simp [dictSet, dictKeys_cons]
    · have hmem : k ∈ dictKeys rest := by
        rcases List.mem_cons.mp h with h1 | h1
        · exact absurd h1.symm h0
        · exact h1
      simp [dictSet, h0, dictKeys_cons, ih hmem]

theorem dictKeys_dictSet_not_mem {α : Type} (d : List (String × α)) (k : String) (v : α)
    (h : k ∉ dictKeys d) :
    dictKeys (dictSet d k v) = dictKeys d ++ [k] := by
  induction d with
  | nil => simp [dictSet, dictKeys_nil, dictKeys_cons]
  | cons p rest ih =>
    obtain ⟨k0, v0⟩ := p
    rw [dictKeys_cons] at h
    have h0 : k0 ≠ k := fun hh => h (List.mem_cons.mpr (Or.inl hh.symm))
    have hrest : k ∉ dictKeys rest := fun hh => h (List.mem_cons.mpr (Or.inr hh))
    simp [dictSet, h0, dictKeys_cons, ih hrest]

theorem length_dictSet_mem {α : Type} (d : List (String × α)) (k : String) (v : α)
    (h : k ∈ dictKeys d) :
    (dictSet d k v).length = d.length := by
  have hk := congrArg List.length (dictKeys_dictSet_mem d k v h)
  simpa [dictKeys] using hk

theorem length_dictSet_not_mem {α : Type} (d : List (String × α)) (k : String) (v : α)
    (h : k ∉ dictKeys d) :
    (dictSet d k v).length = d.length + 1 := by
  have hk := congrArg List.length (dictKeys_dictSet_not_mem d k v h)
  simpa [dictKeys] using hk

theorem dictGet?_eq_none {α : Type} (d : List (String × α)) (k : String) :
    dictGet? d k = none ↔ k ∉ dictKeys d := by
  induction d with
  | nil => simp [dictGet?, dictKeys_nil]
  | cons p rest ih =>
    obtain ⟨k0, v0⟩ := p
    rw [dictKeys_cons]
    by_cases h0 : k0 = k
    · subst h0
      simp [dictGet?, List.mem_cons]
    · simp [dictGet?, h0, ih, List.mem_cons, Ne.symm h0]

theorem dictGet?_map {α β : Type} (f : α → β) (d : List (String × α)) (k : String) :
    dictGet? (d.map (fun p => (p.1, f p.2))) k = (dictGet? d k).map f := by
  induction d with
  | nil => simp [dictGet?]
  | cons p rest ih =>
    obtain ⟨k0, v0⟩ := p
    by_cases h0 : k0 = k
    · simp [dictGet?, h0]
    · simp [dictGet?, h0, ih]

theorem mem_of_dictGet? {α : Type} {d : List (String × α)} {k : String} {v : α}
    (h : dictGet? d k = some v) : (k, v) ∈ d := by
  induction d with
  | nil => simp [dictGet?] at h
  | cons p rest ih =>
    obtain ⟨k0, v0⟩ := p
    by_cases h0 : k0 = k
    · subst h0
      simp [dictGet?] at h
      simp [h]
    · simp [dictGet?, h0] at h
      exact List.mem_cons_of_mem _ (ih h)

theorem dictGet?_foldl_not_mem {α β : Type} (f : β → α) (ds : List (String × β))
    (d : List (String × α)) (k : String) (h : k ∉ dictKeys ds) :
    dictGet? (ds.foldl (fun acc p => dictSet acc p.1 (f p.2)) d) k = dictGet? d k := by
  induction ds generalizing d with
  | nil => simp
  | cons p rest ih =>
    obtain ⟨k0, v0⟩ := p
    rw [dictKeys_cons] at h
    have h0 : k ≠ k0 := fun hh => h (List.mem_cons.mpr (Or.inl hh))
    have hrest : k ∉ dictKeys rest := fun hh => h (List.mem_cons.mpr (Or.inr hh))
    simp only [List.foldl_cons]
    rw [ih _ hrest, dictGet?_dictSet_ne _ _ _ _ h0]

theorem dictGet?_foldl_mem {α β : Type} (f : β → α) (ds : List (String × β))
    (d : List (String × α)) (k : String) (v : β)
    (hnd : (dictKeys ds).Nodup) (hmem : (k, v) ∈ ds) :
    dictGet? (ds.foldl (fun acc p => dictSet acc p.1 (f p.2)) d) k = some (f v) := by
  induction ds generalizing d with
  | nil => simp at hmem
  | cons p rest ih =>
    obtain ⟨k0, v0⟩ := p
    rw [dictKeys_cons] at hnd
    have hnd0 : k0 ∉ dictKeys rest := (List.nodup_cons.mp hnd).1
    have hndrest : (dictKeys rest).Nodup := (List.nodup_cons.mp hnd).2
    rcases List.mem_cons.mp hmem with hhead | htail
    · injection hhead with hk hv
      subst hk
      subst hv
      simp only [List.foldl_cons]
      rw [dictGet?_foldl_not_mem _ _ _ _ hnd0, dictGet?_dictSet_self]
    · simp only [List.foldl_cons]
      exact ih _ hndrest htail

theorem assemble_get_aws (m : MetricManager) (t : Int)
    (h : dictGet? m.dimension_set "_aws" = none) :
    dictGet? (assemble_metric_set m t) "_aws" =
      some (FlatValue.aws
        ⟨t, [⟨m.namespace_, [dictKeys m.dimension_set],
             m.metric_set.map (fun p => ⟨p.1, p.2.Unit⟩)⟩]⟩) := by
  unfold assemble_metric_set
  rw [dictGet?_foldl_not_mem _ _ _ _ ((dictGet?_eq_none _ _).mp h)]
  exact dictGet?_dictSet_self _ _ _

theorem assemble_get_metric (m : MetricManager) (t : Int) (k : String) (met : Metric)
    (hk : dictGet? m.metric_set k = some met) (hne : k ≠ "_aws")
    (hdim : dictGet? m.dimension_set k = none) :
    dictGet? (assemble_metric_set m t) k = some (FlatValue.num met.Value) := by
  unfold assemble_metric_set
  rw [dictGet?_foldl_not_mem _ _ _ _ ((dictGet?_eq_none _ _).mp hdim)]
  rw [dictGet?_dictSet_ne _ _ _ _ hne]
  rw [dictGet?_map (fun x => FlatValue.num x.Value) m.metric_set k, hk]
  rfl

theorem assemble_get_dim (m : MetricManager) (t : Int) (k v : String)
    (hnd : (dictKeys m.dimension_set).Nodup) (hmem : (k, v) ∈ m.dimension_set) :
    dictGet? (assemble_metric_set m t) k = some (FlatValue.str v) := by
  unfold assemble_metric_set
  exact dictGet?_foldl_mem _ _ _ _ _ hnd hmem

theorem serialize_ok_eq (m : MetricManager) (t : Int) (doc : EmfDocument)
    (h : serialize_metric_set m t = Except.ok doc) :
    doc = assemble_metric_set m t := by
  simp only [serialize_metric_set] at h
  split at h
  · cases h
  · cases h
    rfl

theorem add_metric_no_flush (m : MetricManager) (name : String) (u : UnitInput)
    (q : ℚ) (t : Int) (cu : String)
    (hu : extract_metric_unit_value u = Except.ok cu)
    (hlen : (dictSet m.metric_set name ⟨cu, q⟩).length ≠ MAX_METRICS) :
    add_metric m name u (PyValue.num q) t =
      ({ m with metric_set := dictSet m.metric_set name ⟨cu, q⟩ }, [],
        Except.ok PyReturn.noneV) := by
  unfold add_metric
  rw [hu]
  simp only
  rw [if_neg hlen]

theorem add_metric_flush_ok (m : MetricManager) (name : String) (u : UnitInput)
    (q : ℚ) (t : Int) (cu : String) (doc : EmfDocument)
    (hu : extract_metric_unit_value u = Except.ok cu)
    (hlen : (dictSet m.metric_set name ⟨cu, q⟩).length = MAX_METRICS)
    (hser : serialize_metric_set
        { m with metric_set := dictSet m.metric_set name ⟨cu, q⟩ } t =
      Except.ok doc) :
    add_metric m name u (PyValue.num q) t =
      ({ m with metric_set := [] }, [doc], Except.ok PyReturn.noneV) := by
  unfold add_metric
  rw [hu]
  simp only
  rw [if_pos hlen, hser]

theorem add_metric_flush_err (m : MetricManager) (name : String) (u : UnitInput)
    (q : ℚ) (t : Int) (cu : String) (e : MetricsError)
    (hu : extract_metric_unit_value u = Except.ok cu)
    (hlen : (dictSet m.metric_set name ⟨cu, q⟩).length = MAX_METRICS)
    (hser : serialize_metric_set
        { m with metric_set := dictSet m.metric_set name ⟨cu, q⟩ } t =
      Except.error e) :
    add_metric m name u (PyValue.num q) t =
      ({ m with metric_set := dictSet m.metric_set name ⟨cu, q⟩ }, [],
        Except.error e) := by
  unfold add_metric
  rw [hu]
  simp only
  rw [if_pos hlen, hser]

theorem length_dictSet_cases {α : Type} (d : List (String × α)) (k : String) (v : α) :
    (dictSet d k v).length = d.length ∨ (dictSet d k v).length = d.length + 1 := by
  by_cases h : k ∈ dictKeys d
  · exact Or.inl (length_dictSet_mem d k v h)
  · exact Or.inr (length_dictSet_not_mem d k v h)

theorem add_metric_small_emits_nothing (m : MetricManager) (name : String)
    (u : UnitInput) (v : PyValue) (t : Int)
    (h1 : m.metric_set.length ≠ MAX_METRICS)
    (h2 : m.metric_set.length + 1 ≠ MAX_METRICS) :
    (add_metric m name u v t).2.1 = [] := by
  unfold add_metric
  cases v with
  | str s => rfl
  | num q =>
    cases hu : extract_metric_unit_value u with
    | error e => rfl
    | ok cu =>
      simp only
      rw [if_neg]
      rcases length_dictSet_cases m.metric_set name ⟨cu, q⟩ with h | h
      · rw [h]
        exact h1
      · rw [h]
        exact h2

/-- C6: for every engine whose namespace is already set, any further `add_namespace`
call, including one passing the identical value already set, fails with the
duplicate-namespace error carrying the stored value, and the engine state, hence the
stored namespace, is returned unchanged (the first value set persists). -/
theorem claim_C6_duplicate_namespace (m : MetricManager) (ns0 name : String)
    (h : m.namespace_ = some ns0) :
    add_namespace m name = (m, some (MetricsError.UniqueNamespaceError ns0)) := by
  simp [add_namespace, h]

theorem claim_C6_witness :
    add_namespace ⟨[], [], some "Orders"⟩ "Orders" =
      (⟨[], [], some "Orders"⟩, some (MetricsError.UniqueNamespaceError "Orders")) :=
  claim_C6_duplicate_namespace ⟨[], [], some "Orders"⟩ "Orders" "Orders" rfl

/-- C8: for every non-numeric (text string) value argument, `add_metric` fails with
`MetricValueError` carrying the offending value, emits nothing, and leaves the engine
state, hence the metric buffer, entirely unchanged: neither name nor unit is inserted. -/
theorem claim_C8_invalid_value_rejected (m : MetricManager) (name : String)
    (u : UnitInput) (s : String) (t : Int) :
    add_metric m name u (PyValue.str s) t =
      (m, [], Except.error (MetricsError.MetricValueError (PyValue.str s))) := by
  simp [add_metric]

/-- C7: for every unit input that is neither a typed unit value (it is a plain
string), nor a known member-name alias, nor a canonical unit string, `add_metric`
fails with `MetricUnitError` carrying the rejected value and the full list of
accepted aliases, emits nothing, and leaves the engine state entirely unchanged. -/
theorem claim_C7_invalid_unit_rejected (m : MetricManager) (name s : String)
    (q : ℚ) (t : Int)
    (halias : metric_unit_options.contains s = false)
    (hcanon : metric_units.contains s = false) :
    add_metric m name (UnitInput.str s) (PyValue.num q) t =
      (m, [], Except.error (MetricsError.MetricUnitError s metric_unit_options)) := by
  have h1 : s ∉ metric_unit_options := by
    simpa using halias
  have h2 : s ∉ metric_units := by
    simpa using hcanon
  simp [add_metric, extract_metric_unit_value, h1, h2]

theorem claim_C7_witness :
    add_metric ⟨[], [], some "Orders"⟩ "X" (UnitInput.str "Frobnicates")
        (PyValue.num 1) 0 =
      (⟨[], [], some "Orders"⟩, [],
        Except.error (MetricsError.MetricUnitError "Frobnicates" metric_unit_options)) :=
  claim_C7_invalid_unit_rejected ⟨[], [], some "Orders"⟩ "X" "Frobnicates" 1 0
    (by decide) (by decide)

/-- C4 as stated is false on the code: with both an environment-sourced namespace and
an explicit namespace argument present and non-empty, the engine keeps the
environment value, not the explicit argument, because the source computes
`os.getenv(...) or namespace`. -/
theorem claim_C4_counterexample :
    (MetricManager.init (some "EnvNs") none none (some "ArgNs")).namespace_ =
      some "EnvNs" ∧
    (MetricManager.init (some "EnvNs") none none (some "ArgNs")).namespace_ ≠
      some "ArgNs" := by
  decide

/-- C4 amended: at construction the environment-sourced default namespace wins
whenever it is present and non-empty; the explicit namespace argument is used only
when the environment value is absent or empty. -/
theorem claim_C4_env_namespace_wins (e : String)
    (ms : Option (List (String × Metric))) (ds : Option (List (String × String)))
    (ns : Option String) (h : e ≠ "") :
    (MetricManager.init (some e) ms ds ns).namespace_ = some e ∧
    (MetricManager.init none ms ds ns).namespace_ = ns ∧
    (MetricManager.init (some "") ms ds ns).namespace_ = ns := by
  refine ⟨?_, rfl, rfl⟩
  simp [MetricManager.init, pyOr, h]

theorem claim_C4_witness :
    (MetricManager.init (some "EnvNs") none none (some "ArgNs")).namespace_ =
      some "EnvNs" ∧
    (MetricManager.init none none none (some "ArgNs")).namespace_ = some "ArgNs" ∧
    (MetricManager.init (some "") none none (some "ArgNs")).namespace_ =
      some "ArgNs" :=
  claim_C4_env_namespace_wins "EnvNs" none none (some "ArgNs") (by decide)

/-- C3 as stated is false on the code: this call of `add_metric` triggers the
implicit ceiling flush (exactly one document is emitted) yet returns the Python
`None` value, not a boolean flush indicator. -/
theorem claim_C3_counterexample :
    (add_metric exampleM99 "x" (UnitInput.str "Count") (PyValue.num 1) 5).2.1.length
      = 1 ∧
    (add_metric exampleM99 "x" (UnitInput.str "Count") (PyValue.num 1) 5).2.2 =
      Except.ok PyReturn.noneV ∧
    (add_metric exampleM99 "x" (UnitInput.str "Count") (PyValue.num 1) 5).2.2 ≠
      Except.ok (PyReturn.boolV true) ∧
    (add_metric exampleM99 "x" (UnitInput.str "Count") (PyValue.num 1) 5).2.2 ≠
      Except.ok (PyReturn.boolV false) := by
  decide

/-- C3 amended: `add_metric` never returns a boolean; the Python function body has no
return statement, so every successful call, flushing or not, returns `None`, and the
occurrence of an implicit flush is not reported through the return value. -/
theorem claim_C3_returns_none (m : MetricManager) (name : String) (u : UnitInput)
    (v : PyValue) (t : Int) :
    (∀ b : Bool,
      (add_metric m name u v t).2.2 ≠ Except.ok (PyReturn.boolV b)) ∧
    (∀ r : PyReturn,
      (add_metric m name u v t).2.2 = Except.ok r → r = PyReturn.noneV) := by
  have h : (add_metric m name u v t).2.2 = Except.ok PyReturn.noneV ∨
      ∃ e, (add_metric m name u v t).2.2 = Except.error e := by
    unfold add_metric
    cases v with
    | str s => exact Or.inr ⟨_, rfl⟩
    | num q =>
      cases hu : extract_metric_unit_value u with
      | error e => exact Or.inr ⟨e, rfl⟩
      | ok cu =>
        simp only
        split
        · cases hs : serialize_metric_set _ t with
          | error e => exact Or.inr ⟨e, rfl⟩
          | ok doc => exact Or.inl rfl
        · exact Or.inl rfl
  rcases h with h | ⟨e, h⟩ <;> rw [h] <;> constructor
  · intro b hb
    cases hb
  · intro r hr
    cases hr
    rfl
  · intro b hb
    cases hb
  · intro r hr
    cases hr

theorem claim_C3_witness :
    (add_metric exampleOrders "Latency" (UnitInput.str "Count")
      (PyValue.num 1) 0).2.2 ≠ Except.ok (PyReturn.boolV true) ∧
    (add_metric exampleOrders "Latency" (UnitInput.str "Count")
      (PyValue.num 1) 0).2.2 ≠ Except.ok (PyReturn.boolV false) ∧
    PyReturn.noneV = PyReturn.noneV := by
  have h := claim_C3_returns_none exampleOrders "Latency" (UnitInput.str "Count")
    (PyValue.num 1) 0
  exact ⟨h.1 true, h.1 false, h.2 PyReturn.noneV (by decide)⟩

/-- C9: for every engine with no namespace set (absent or empty), serialization at a
non-negative clock reading fails schema validation with `SchemaValidationError` on
the namespace rule, and no document is returned. -/
theorem claim_C9_serialize_without_namespace (m : MetricManager) (t : Int)
    (ht : 0 ≤ t) (hdim : dictGet? m.dimension_set "_aws" = none)
    (hns : m.namespace_ = none ∨ m.namespace_ = some "") :
    serialize_metric_set m t =
      Except.error (MetricsError.SchemaValidationError "Namespace") := by
  have haws := assemble_get_aws m t hdim
  have hv : validateEmf (assemble_metric_set m t) = some "Namespace" := by
    unfold validateEmf
    rw [haws]
    rcases hns with h | h <;> rw [h] <;> simp [not_lt.mpr ht, List.findSome?]
  simp only [serialize_metric_set, hv]

theorem claim_C9_witness :
    serialize_metric_set ⟨[("Latency", ⟨"Count", 1⟩)], [], none⟩ 0 =
      Except.error (MetricsError.SchemaValidationError "Namespace") :=
  claim_C9_serialize_without_namespace ⟨[("Latency", ⟨"Count", 1⟩)], [], none⟩ 0
    (by decide) (by decide) (Or.inl rfl)

/-- C5: a successful re-add of an existing metric name overwrites the stored entry in
place: the key list, hence both the buffer size and the position of the re-added key,
is unchanged and the entry under the name is the new (unit, value); a new name is
appended to the key list; concretely, adding X Count 1, then X Count 2, then
serializing yields the flat value 2, not 3. -/
theorem claim_C5_overwrite_semantics :
    (∀ (m : MetricManager) (name : String) (u : UnitInput) (q : ℚ) (t : Int)
        (cu : String),
      extract_metric_unit_value u = Except.ok cu →
      (dictSet m.metric_set name ⟨cu, q⟩).length ≠ MAX_METRICS →
      (name ∈ dictKeys m.metric_set →
        dictKeys (add_metric m name u (PyValue.num q) t).1.metric_set =
          dictKeys m.metric_set ∧
        (add_metric m name u (PyValue.num q) t).1.metric_set.length =
          m.metric_set.length) ∧
      (name ∉ dictKeys m.metric_set →
        dictKeys (add_metric m name u (PyValue.num q) t).1.metric_set =
          dictKeys m.metric_set ++ [name]) ∧
      dictGet? (add_metric m name u (PyValue.num q) t).1.metric_set name =
        some ⟨cu, q⟩) ∧
    (serialize_metric_set
        (add_metric
          (add_metric exampleOrders "X" (UnitInput.str "Count") (PyValue.num 1) 0).1
          "X" (UnitInput.str "Count") (PyValue.num 2) 0).1 0 =
      Except.ok [("X", FlatValue.num 2),
        ("_aws", FlatValue.aws
          ⟨0, [⟨some "Orders", [["service"]], [⟨"X", "Count"⟩]⟩]⟩),
        ("service", FlatValue.str "orders")] ∧
     FlatValue.num 2 ≠ FlatValue.num 3) := by
  constructor
  · intro m name u q t cu hu hlen
    rw [add_metric_no_flush m name u q t cu hu hlen]
    refine ⟨?_, ?_, dictGet?_dictSet_self _ _ _⟩
    · intro hmem
      exact ⟨dictKeys_dictSet_mem _ _ _ hmem, length_dictSet_mem _ _ _ hmem⟩
    · intro hmem
      exact dictKeys_dictSet_not_mem _ _ _ hmem
  · exact ⟨by decide, by decide⟩

theorem claim_C5_witness :
    dictKeys (add_metric exampleX "X" (UnitInput.str "Count")
        (PyValue.num 2) 0).1.metric_set = dictKeys exampleX.metric_set ∧
    (add_metric exampleX "X" (UnitInput.str "Count")
        (PyValue.num 2) 0).1.metric_set.length = exampleX.metric_set.length ∧
    dictGet? (add_metric exampleX "X" (UnitInput.str "Count")
        (PyValue.num 2) 0).1.metric_set "X" = some ⟨"Count", 2⟩ := by
  have h := claim_C5_overwrite_semantics.1 exampleX "X" (UnitInput.str "Count") 2 0
    "Count" (by decide) (by decide)
  exact ⟨(h.1 (by decide)).1, (h.1 (by decide)).2, h.2.2⟩

/-- C10: when serialization raises `SchemaValidationError` during the implicit
ceiling-triggered flush inside `add_metric`, the error propagates out of the call,
nothing is emitted, and the metric buffer is NOT cleared: it still holds all
`MAX_METRICS` entries including the newly added metric, while the dimension set and
the namespace are unchanged. -/
theorem claim_C10_schema_failure_keeps_buffer (m : MetricManager) (name : String)
    (u : UnitInput) (q : ℚ) (t : Int) (cu viol : String)
    (hu : extract_metric_unit_value u = Except.ok cu)
    (hlen : (dictSet m.metric_set name ⟨cu, q⟩).length = MAX_METRICS)
    (hser : serialize_metric_set
        { m with metric_set := dictSet m.metric_set name ⟨cu, q⟩ } t =
      Except.error (MetricsError.SchemaValidationError viol)) :
    add_metric m name u (PyValue.num q) t =
      ({ m with metric_set := dictSet m.metric_set name ⟨cu, q⟩ }, [],
        Except.error (MetricsError.SchemaValidationError viol)) ∧
    (add_metric m name u (PyValue.num q) t).1.metric_set.length = MAX_METRICS ∧
    dictGet? (add_metric m name u (PyValue.num q) t).1.metric_set name =
      some ⟨cu, q⟩ ∧
    (add_metric m name u (PyValue.num q) t).1.dimension_set = m.dimension_set ∧
    (add_metric m name u (PyValue.num q) t).1.namespace_ = m.namespace_ := by
  have h := add_metric_flush_err m name u q t cu _ hu hlen hser
  rw [h]
  exact ⟨rfl, hlen, dictGet?_dictSet_self _ _ _, rfl, rfl⟩

theorem claim_C10_witness :
    add_metric exampleM99NoNs "x" (UnitInput.str "Count") (PyValue.num 1) 5 =
      ({ exampleM99NoNs with
          metric_set := dictSet exampleM99NoNs.metric_set "x" ⟨"Count", 1⟩ }, [],
        Except.error (MetricsError.SchemaValidationError "Namespace")) ∧
    (add_metric exampleM99NoNs "x" (UnitInput.str "Count")
        (PyValue.num 1) 5).1.metric_set.length = MAX_METRICS ∧
    dictGet? (add_metric exampleM99NoNs "x" (UnitInput.str "Count")
        (PyValue.num 1) 5).1.metric_set "x" = some ⟨"Count", 1⟩ ∧
    (add_metric exampleM99NoNs "x" (UnitInput.str "Count")
        (PyValue.num 1) 5).1.dimension_set = exampleM99NoNs.dimension_set ∧
    (add_metric exampleM99NoNs "x" (UnitInput.str "Count")
        (PyValue.num 1) 5).1.namespace_ = exampleM99NoNs.namespace_ :=
  claim_C10_schema_failure_keeps_buffer exampleM99NoNs "x" (UnitInput.str "Count")
    1 5 "Count" "Namespace" (by decide) (by decide) (by decide)

/-- C2: for every valid (name, canonical-or-aliased unit, numeric value) triple,
`add_metric` followed by `serialize_metric_set` yields a flat document mapping the
name to the supplied value, with a metadata descriptor for the name carrying the
canonical unit string; in particular the Orders example serializes, at any
non-negative clock reading, to the validated document holding the single dimension
group ["service"], the descriptor (Latency, Milliseconds), the flat entries
Latency 42 and service orders, and the integer millisecond timestamp. -/
theorem claim_C2_add_then_serialize :
    (∀ (m : MetricManager) (name : String) (u : UnitInput) (q : ℚ) (t t2 : Int)
        (cu : String) (doc : EmfDocument),
      extract_metric_unit_value u = Except.ok cu →
      (dictSet m.metric_set name ⟨cu, q⟩).length ≠ MAX_METRICS →
      serialize_metric_set (add_metric m name u (PyValue.num q) t).1 t2 =
        Except.ok doc →
      name ≠ "_aws" →
      dictGet? m.dimension_set name = none →
      dictGet? m.dimension_set "_aws" = none →
      dictGet? doc name = some (FlatValue.num q) ∧
      ∃ descrs,
        dictGet? doc "_aws" =
          some (FlatValue.aws
            ⟨t2, [⟨m.namespace_, [dictKeys m.dimension_set], descrs⟩]⟩) ∧
        MetricDescriptor.mk name cu ∈ descrs) ∧
    (∀ t : Int, 0 ≤ t →
      serialize_metric_set
        (add_metric exampleOrders "Latency" (UnitInput.str "Milliseconds")
          (PyValue.num 42) 0).1 t =
        Except.ok (exampleOrdersDoc t)) := by
  constructor
  · intro m name u q t t2 cu doc hu hlen hser hne hdimname hdimaws
    rw [add_metric_no_flush m name u q t cu hu hlen] at hser
    have hdoc := serialize_ok_eq _ _ _ hser
    subst hdoc
    constructor
    · exact assemble_get_metric
        { m with metric_set := dictSet m.metric_set name ⟨cu, q⟩ } t2 name ⟨cu, q⟩
        (dictGet?_dictSet_self _ _ _) hne hdimname
    · refine ⟨(dictSet m.metric_set name ⟨cu, q⟩).map (fun p => ⟨p.1, p.2.Unit⟩),
        ?_, ?_⟩
      · exact assemble_get_aws
          { m with metric_set := dictSet m.metric_set name ⟨cu, q⟩ } t2 hdimaws
      · exact List.mem_map.mpr
          ⟨(name, ⟨cu, q⟩), mem_of_dictGet? (dictGet?_dictSet_self _ _ _), rfl⟩
  · intro t ht
    have hstate : (add_metric exampleOrders "Latency" (UnitInput.str "Milliseconds")
        (PyValue.num 42) 0).1 =
        ⟨[("Latency", ⟨"Milliseconds", 42⟩)], [("service", "orders")],
          some "Orders"⟩ := by
      decide
    rw [hstate]
    have hassem : assemble_metric_set
        ⟨[("Latency", ⟨"Milliseconds", 42⟩)], [("service", "orders")],
          some "Orders"⟩ t = exampleOrdersDoc t := rfl
    have hval : validateEmf (exampleOrdersDoc t) = none := by
      unfold validateEmf exampleOrdersDoc
      simp [dictGet?, metric_units, MetricUnit.members, MetricUnit.value,
        not_lt.mpr ht, List.findSome?]
    simp only [serialize_metric_set, hassem, hval]

theorem claim_C2_witness :
    (dictGet? (exampleOrdersDoc 7) "Latency" = some (FlatValue.num 42) ∧
     ∃ descrs,
       dictGet? (exampleOrdersDoc 7) "_aws" =
         some (FlatValue.aws
           ⟨7, [⟨exampleOrders.namespace_, [dictKeys exampleOrders.dimension_set],
                descrs⟩]⟩) ∧
       MetricDescriptor.mk "Latency" "Milliseconds" ∈ descrs) ∧
    serialize_metric_set
      (add_metric exampleOrders "Latency" (UnitInput.str "Milliseconds")
        (PyValue.num 42) 0).1 7 =
      Except.ok (exampleOrdersDoc 7) :=
  ⟨claim_C2_add_then_serialize.1 exampleOrders "Latency"
      (UnitInput.str "Milliseconds") 42 0 7 "Milliseconds" (exampleOrdersDoc 7)
      (by decide) (by decide) (by decide) (by decide) (by decide) (by decide),
   claim_C2_add_then_serialize.2 7 (by decide)⟩

/-- C1: from any engine state holding 99 metrics, a successful `add_metric` of a new
100th metric triggers exactly one implicit flush: a single document is emitted,
carrying the metadata (namespace, one dimension group with the current dimension
keys, one descriptor per buffered metric, hence 100), the flat value of every one of
the 100 buffered metrics, and every current dimension value; afterwards the metric
buffer is empty while the dimension set and the namespace are unchanged, and a
subsequent `add_metric` from the flushed state emits nothing (no flush until the
count reaches the ceiling again). -/
theorem claim_C1_ceiling_flush (m : MetricManager) (name : String) (u : UnitInput)
    (q : ℚ) (t : Int) (cu : String)
    (hu : extract_metric_unit_value u = Except.ok cu)
    (h99 : m.metric_set.length = 99)
    (hnew : dictGet? m.metric_set name = none)
    (hok : (add_metric m name u (PyValue.num q) t).2.2 = Except.ok PyReturn.noneV)
    (hawsdim : dictGet? m.dimension_set "_aws" = none) :
    ∃ doc,
      (add_metric m name u (PyValue.num q) t).2.1 = [doc] ∧
      (dictSet m.metric_set name ⟨cu, q⟩).length = 100 ∧
      (∃ descrs,
        dictGet? doc "_aws" =
          some (FlatValue.aws
            ⟨t, [⟨m.namespace_, [dictKeys m.dimension_set], descrs⟩]⟩) ∧
        descrs = (dictSet m.metric_set name ⟨cu, q⟩).map
          (fun p => ⟨p.1, p.2.Unit⟩) ∧
        descrs.length = 100) ∧
      (∀ k met,
        dictGet? (dictSet m.metric_set name ⟨cu, q⟩) k = some met →
        k ≠ "_aws" → dictGet? m.dimension_set k = none →
        dictGet? doc k = some (FlatValue.num met.Value)) ∧
      ((dictKeys m.dimension_set).Nodup →
        ∀ k v, (k, v) ∈ m.dimension_set →
          dictGet? doc k = some (FlatValue.str v)) ∧
      (add_metric m name u (PyValue.num q) t).1.metric_set = [] ∧
      (add_metric m name u (PyValue.num q) t).1.dimension_set = m.dimension_set ∧
      (add_metric m name u (PyValue.num q) t).1.namespace_ = m.namespace_ ∧
      (∀ name2 u2 v2 t2,
        (add_metric (add_metric m name u (PyValue.num q) t).1
          name2 u2 v2 t2).2.1 = []) := by
  have hnotmem : name ∉ dictKeys m.metric_set := (dictGet?_eq_none _ _).mp hnew
  have hlen : (dictSet m.metric_set name ⟨cu, q⟩).length = MAX_METRICS := by
    rw [length_dictSet_not_mem _ _ _ hnotmem, h99]
    rfl
  cases hser : serialize_metric_set
      { m with metric_set := dictSet m.metric_set name ⟨cu, q⟩ } t with
  | error e =>
    rw [add_metric_flush_err m name u q t cu e hu hlen hser] at hok
    cases hok
  | ok doc =>
    have hadd := add_metric_flush_ok m name u q t cu doc hu hlen hser
    have hdoc := serialize_ok_eq _ _ _ hser
    subst hdoc
    refine ⟨assemble_metric_set
        { m with metric_set := dictSet m.metric_set name ⟨cu, q⟩ } t,
      ?_, hlen, ?_, ?_, ?_, ?_, ?_, ?_, ?_⟩
    · rw [hadd]
    · refine ⟨_, assemble_get_aws _ t hawsdim, rfl, ?_⟩
      rw [List.length_map]
      exact hlen
    · intro k met hk hne hdim
      exact assemble_get_metric _ t k met hk hne hdim
    · intro hnd k v hmem
      exact assemble_get_dim _ t k v hnd hmem
    · rw [hadd]
    · rw [hadd]
    · rw [hadd]
    · intro name2 u2 v2 t2
      rw [hadd]
      exact add_metric_small_emits_nothing _ name2 u2 v2 t2
        (by decide : ([] : List (String × Metric)).length ≠ MAX_METRICS)
        (by decide : ([] : List (String × Metric)).length + 1 ≠ MAX_METRICS)

theorem claim_C1_witness :
    ∃ doc,
      (add_metric exampleM99 "x" (UnitInput.str "Count")
        (PyValue.num 1) 5).2.1 = [doc] ∧
      (dictSet exampleM99.metric_set "x" ⟨"Count", 1⟩).length = 100 ∧
      (∃ descrs,
        dictGet? doc "_aws" =
          some (FlatValue.aws
            ⟨5, [⟨exampleM99.namespace_, [dictKeys exampleM99.dimension_set],
                 descrs⟩]⟩) ∧
        descrs = (dictSet exampleM99.metric_set "x" ⟨"Count", 1⟩).map
          (fun p => ⟨p.1, p.2.Unit⟩) ∧
        descrs.length = 100) ∧
      (∀ k met,
        dictGet? (dictSet exampleM99.metric_set "x" ⟨"Count", 1⟩) k = some met →
        k ≠ "_aws" → dictGet? exampleM99.dimension_set k = none →
        dictGet? doc k = some (FlatValue.num met.Value)) ∧
      ((dictKeys exampleM99.dimension_set).Nodup →
        ∀ k v, (k, v) ∈ exampleM99.dimension_set →
          dictGet? doc k = some (FlatValue.str v)) ∧
      (add_metric exampleM99 "x" (UnitInput.str "Count")
        (PyValue.num 1) 5).1.metric_set = [] ∧
      (add_metric exampleM99 "x" (UnitInput.str "Count")
        (PyValue.num 1) 5).1.dimension_set = exampleM99.dimension_set ∧
      (add_metric exampleM99 "x" (UnitInput.str "Count")
        (PyValue.num 1) 5).1.namespace_ = exampleM99.namespace_ ∧
      (∀ name2 u2 v2 t2,
        (add_metric (add_metric exampleM99 "x" (UnitInput.str "Count")
          (PyValue.num 1) 5).1 name2 u2 v2 t2).2.1 = []) :=
  claim_C1_ceiling_flush exampleM99 "x" (UnitInput.str "Count") 1 5 "Count"
    (by decide) (by decide) (by decide) (by decide) (by decide)

end EMF
